import Mathlib

/-!
Shallow embedding of the Daily Activity Tracker backend (src/main.py and
src/schemas.py) and verification of its specification claims.

Machine conventions:
* `datetime` values are modelled as `Nat` seconds since the Unix epoch
  (all values are timezone-aware UTC in the source).
* `float` hours are modelled as `ℚ`; Python `round(x, 2)` is modelled by
  `pyRound2` (round half to even at the hundredths, as Python's `round`).
* Mongo documents handled by `serialize` are association lists of BSON-like
  values (`BDoc`); the fixed-schema collections (task, note, worklog,
  activity) are modelled by structures carrying those values.
* The global `db` handle is `Option Store`; each write handler returns the
  new state together with an `Except HErr` response, so that an exception
  raised after a write leaves the write in place, as in the source.
-/

/-- BSON-like values stored in documents. -/
inductive BVal where
  | vNull
  | vStr (s : String)
  | vOid (s : String)
  | vDT (t : Nat)
  | vNum (q : ℚ)
  | vBool (b : Bool)
  | vListStr (l : List String)
deriving DecidableEq, Repr

/-- Python truthiness of a stored value (`if doc.get("_id")`). -/
def bvTruthy : BVal → Bool
  | BVal.vNull => false
  | BVal.vStr s => s != ""
  | BVal.vOid _ => true
  | BVal.vDT _ => true
  | BVal.vNum q => q != 0
  | BVal.vBool b => b
  | BVal.vListStr l => !l.isEmpty

/-- Left-pad the decimal form of `n` with zeros to two digits. -/
def pad2 (n : Nat) : String :=
  if n < 10 then "0" ++ toString n else toString n

/-- Left-pad the decimal form of `n` with zeros to four digits. -/
def pad4 (n : Nat) : String :=
  if n < 10 then "000" ++ toString n
  else if n < 100 then "00" ++ toString n
  else if n < 1000 then "0" ++ toString n
  else toString n

/-- Civil date (year, month, day) from a count of days since 1970-01-01,
    following the standard days-from-civil inverse algorithm. -/
def civilFromDays (z0 : Nat) : Nat × Nat × Nat :=
  let z := z0 + 719468
  let era := z / 146097
  let doe := z % 146097
  let yoe := (doe - doe / 1460 + doe / 36524 - doe / 146096) / 365
  let y := yoe + era * 400
  let doy := doe - (365 * yoe + yoe / 4 - yoe / 100)
  let mp := (5 * doy + 2) / 153
  let d := doy - (153 * mp + 2) / 5 + 1
  let m := if mp < 10 then mp + 3 else mp - 9
  (if m ≤ 2 then y + 1 else y, m, d)

/-- "YYYY-MM-DD" rendering of an epoch-seconds timestamp. -/
def dateStrUTC (t : Nat) : String :=
  let c := civilFromDays (t / 86400)
  pad4 c.1 ++ "-" ++ pad2 c.2.1 ++ "-" ++ pad2 c.2.2

/-- "HH:MM:SS" rendering of the time-of-day part of an epoch-seconds
    timestamp. -/
def timeStrUTC (t : Nat) : String :=
  let s := t % 86400
  pad2 (s / 3600) ++ ":" ++ pad2 (s % 3600 / 60) ++ ":" ++ pad2 (s % 60)

/-- `datetime.isoformat()` of a UTC-aware datetime at whole seconds:
    "YYYY-MM-DDTHH:MM:SS+00:00". -/
def isoUTC (t : Nat) : String :=
  dateStrUTC t ++ "T" ++ timeStrUTC t ++ "+00:00"

/-- Python `str()` of a UTC-aware datetime (space separator). -/
def isoSpaceUTC (t : Nat) : String :=
  dateStrUTC t ++ " " ++ timeStrUTC t ++ "+00:00"

/-- Python `str()` of a stored value, as used for `str(doc.pop("_id"))`
    and in activity messages. -/
def pyStr : BVal → String
  | BVal.vNull => "None"
  | BVal.vStr s => s
  | BVal.vOid s => s
  | BVal.vDT t => isoSpaceUTC t
  | BVal.vNum q => toString q
  | BVal.vBool b => if b then "True" else "False"
  | BVal.vListStr l => toString l

/-- A Mongo document as an ordered association list (Python dicts preserve
    insertion order; keys are unique). -/
abbrev BDoc : Type := List (String × BVal)

/-- `doc.get(k)`. -/
def dget (d : BDoc) (k : String) : Option BVal :=
  List.lookup k d

/-- `doc.pop(k)`: the document without key `k`. -/
def dpop (d : BDoc) (k : String) : BDoc :=
  d.filter (fun kv => kv.1 != k)

/-- `doc[k] = v`: replace in place when the key exists, else append. -/
def dset (d : BDoc) (k : String) (v : BVal) : BDoc :=
  if d.any (fun kv => kv.1 == k) then
    d.map (fun kv => if kv.1 = k then (k, v) else kv)
  else d ++ [(k, v)]

/-- The datetime-to-ISO conversion applied to each value by `serialize`
    (`doc[k] = v.astimezone(timezone.utc).isoformat()`). -/
def bconv : BVal → BVal
  | BVal.vDT t => BVal.vStr (isoUTC t)
  | v => v

/-- `serialize` from src/main.py: pass `None` and empty documents through;
    otherwise set `id` from a truthy `_id` (popping it) or to `None`, then
    convert every datetime value to its ISO string. -/
def serialize (doc : Option BDoc) : Option BDoc :=
  match doc with
  | none => none
  | some d =>
    if d.isEmpty then some d
    else
      let d1 :=
        match dget d "_id" with
        | some v =>
          if bvTruthy v then dset (dpop d "_id") "id" (BVal.vStr (pyStr v))
          else dset d "id" BVal.vNull
        | none => dset d "id" BVal.vNull
      some (d1.map (fun kv => (kv.1, bconv kv.2)))

/-- Rounding half to even at integer precision, as Python's built-in
    `round` on exact values. -/
def roundHalfEven (x : ℚ) : ℤ :=
  if x - (⌊x⌋ : ℚ) < 1/2 then ⌊x⌋
  else if 1/2 < x - (⌊x⌋ : ℚ) then ⌊x⌋ + 1
  else if ⌊x⌋ % 2 = 0 then ⌊x⌋ else ⌊x⌋ + 1

/-- Python `round(x, 2)`. -/
def pyRound2 (q : ℚ) : ℚ := (roundHalfEven (q * 100) : ℚ) / 100

/-- `ObjectId` hex-digit test. -/
def isHexChar (c : Char) : Bool :=
  c.isDigit || ('a' ≤ c && c ≤ 'f') || ('A' ≤ c && c ≤ 'F')

/-- A string is accepted by the `ObjectId` constructor iff it is a 24-char
    hexadecimal string. -/
def isValidOid (s : String) : Bool :=
  s.length == 24 && s.data.all isHexChar

/-- Hex normalisation: `ObjectId` compares by its 12 bytes, so two hex
    spellings of the same id differing only in letter case are equal. -/
def oidNorm (s : String) : String :=
  String.mk (s.data.map Char.toLower)

/-- The lowercase hex character of a nibble (48 is the code point of the
    zero digit, 87 + 10 that of the letter a). -/
def hexDigit (k : Nat) : Char :=
  if k < 10 then Char.ofNat (48 + k) else Char.ofNat (87 + k)

/-- The fresh 24-hex id string assigned to the `n`-th inserted document. -/
def encodeOid (n : Nat) : String :=
  String.mk ((List.range 24).map (fun i => hexDigit (n / 16 ^ (23 - i) % 16)))

/-- HTTP error (status code and detail), as raised via `HTTPException`. -/
structure HErr where
  status : Nat
  detail : String
deriving DecidableEq, Repr

def invalidIdErr : HErr := ⟨400, "Invalid ID format"⟩
def dbUnavailableErr : HErr := ⟨503, "Database not configured"⟩
def taskNotFoundErr : HErr := ⟨404, "Task not found"⟩
def noteNotFoundErr : HErr := ⟨404, "Note not found"⟩

/-- An exception escaping a handler without a surrounding `try` is turned
    into a generic 500 response by the framework. -/
def internalErr : HErr := ⟨500, "Internal Server Error"⟩

/-- A stored task document: the six fields writable through the API plus
    the `created_at`/`updated_at` timestamps set by the seed route. -/
structure TaskDoc where
  title : BVal
  description : BVal
  status : BVal
  priority : BVal
  due_date : BVal
  tags : BVal
  created_at : Option BVal
  updated_at : Option BVal
deriving DecidableEq, Repr

/-- A stored note document. -/
structure NoteDoc where
  title : BVal
  content : BVal
  pinned : BVal
deriving DecidableEq, Repr

/-- A stored worklog document (`hours` is absent or numeric; worklogs are
    only written through the schema-validated create route and the seed). -/
structure WorklogDoc where
  date : Option BVal
  hours : Option ℚ
  project : Option String
  notes : Option String
deriving DecidableEq, Repr

/-- A stored activity document. -/
structure ActivityDoc where
  type : String
  message : String
  related_id : Option String
  created_at : Nat
deriving DecidableEq, Repr

/-- The document store: one list per collection, a fresh-id counter, and a
    failure oracle telling whether the next `activity` insert raises. -/
structure Store where
  task : List (String × TaskDoc)
  note : List (String × NoteDoc)
  worklog : List WorklogDoc
  activity : List ActivityDoc
  nextId : Nat
  activityInsertFails : Bool
deriving DecidableEq, Repr

/-- The validated `Task` schema from src/schemas.py (after pydantic applies
    the defaults). -/
structure TaskSchema where
  title : String
  description : Option String
  status : String
  priority : String
  due_date : Option Nat
  tags : List String
deriving DecidableEq, Repr

/-- A raw Task creation payload: `none` means the optional field was
    omitted from the JSON body. -/
structure TaskIn where
  title : String
  description : Option String
  status : Option String
  priority : Option String
  due_date : Option Nat
  tags : Option (List String)
deriving DecidableEq, Repr

/-- Pydantic validation of a Task payload: defaults `status="pending"`,
    `priority="medium"`, `tags=[]` (src/schemas.py lines 36-42). -/
def parseTask (p : TaskIn) : TaskSchema :=
  ⟨p.title, p.description, p.status.getD "pending", p.priority.getD "medium",
   p.due_date, p.tags.getD []⟩

/-- The stored document of a validated task. -/
def taskDocOf (t : TaskSchema) : TaskDoc where
  title := BVal.vStr t.title
  description := match t.description with
    | none => BVal.vNull
    | some s => BVal.vStr s
  status := BVal.vStr t.status
  priority := BVal.vStr t.priority
  due_date := match t.due_date with
    | none => BVal.vNull
    | some u => BVal.vDT u
  tags := BVal.vListStr t.tags
  created_at := none
  updated_at := none

/-- The `UpdateTask` body model: the outer `Option` distinguishes an absent
    field (`exclude_unset`) from an explicit `null`. -/
structure UpdateTask where
  title : Option (Option String)
  description : Option (Option String)
  status : Option (Option String)
  priority : Option (Option String)
  due_date : Option (Option Nat)
  tags : Option (Option (List String))
deriving DecidableEq, Repr

/-- The `UpdateNote` body model. -/
structure UpdateNote where
  title : Option (Option String)
  content : Option (Option String)
  pinned : Option (Option Bool)
deriving DecidableEq, Repr

def optStrBVal : Option String → BVal
  | none => BVal.vNull
  | some s => BVal.vStr s

/-- `$set` of the fields present in `payload.model_dump(exclude_unset=True)`:
    absent fields keep their stored value, present fields (including explicit
    nulls) overwrite it. -/
def apply_update (d : TaskDoc) (p : UpdateTask) : TaskDoc where
  title := match p.title with
    | none => d.title
    | some v => optStrBVal v
  description := match p.description with
    | none => d.description
    | some v => optStrBVal v
  status := match p.status with
    | none => d.status
    | some v => optStrBVal v
  priority := match p.priority with
    | none => d.priority
    | some v => optStrBVal v
  due_date := match p.due_date with
    | none => d.due_date
    | some none => BVal.vNull
    | some (some u) => BVal.vDT u
  tags := match p.tags with
    | none => d.tags
    | some none => BVal.vNull
    | some (some l) => BVal.vListStr l
  created_at := d.created_at
  updated_at := d.updated_at

/-- `$set` for notes. -/
def apply_update_note (d : NoteDoc) (p : UpdateNote) : NoteDoc where
  title := match p.title with
    | none => d.title
    | some v => optStrBVal v
  content := match p.content with
    | none => d.content
    | some v => optStrBVal v
  pinned := match p.pinned with
    | none => d.pinned
    | some none => BVal.vNull
    | some (some b) => BVal.vBool b

/-- `find_one_and_update` on the task collection: update the first document
    whose `_id` matches and return the updated document
    (`return_document=True`). -/
def findOneAndUpdateTask (l : List (String × TaskDoc)) (k : String)
    (p : UpdateTask) : Option (List (String × TaskDoc) × TaskDoc) :=
  match l with
  | [] => none
  | (k0, d) :: rest =>
    if k0 = k then some ((k0, apply_update d p) :: rest, apply_update d p)
    else
      match findOneAndUpdateTask rest k p with
      | none => none
      | some (rest2, d2) => some ((k0, d) :: rest2, d2)

/-- `find_one_and_delete` on the task collection. -/
def findOneAndDeleteTask (l : List (String × TaskDoc)) (k : String) :
    Option (List (String × TaskDoc) × TaskDoc) :=
  match l with
  | [] => none
  | (k0, d) :: rest =>
    if k0 = k then some (rest, d)
    else
      match findOneAndDeleteTask rest k with
      | none => none
      | some (rest2, d2) => some ((k0, d) :: rest2, d2)

/-- `find_one_and_update` on the note collection. -/
def findOneAndUpdateNote (l : List (String × NoteDoc)) (k : String)
    (p : UpdateNote) : Option (List (String × NoteDoc) × NoteDoc) :=
  match l with
  | [] => none
  | (k0, d) :: rest =>
    if k0 = k then some ((k0, apply_update_note d p) :: rest, apply_update_note d p)
    else
      match findOneAndUpdateNote rest k p with
      | none => none
      | some (rest2, d2) => some ((k0, d) :: rest2, d2)

/-- `find_one_and_delete` on the note collection. -/
def findOneAndDeleteNote (l : List (String × NoteDoc)) (k : String) :
    Option (List (String × NoteDoc) × NoteDoc) :=
  match l with
  | [] => none
  | (k0, d) :: rest =>
    if k0 = k then some (rest, d)
    else
      match findOneAndDeleteNote rest k with
      | none => none
      | some (rest2, d2) => some ((k0, d) :: rest2, d2)

/-- Modelled from the spec: `create_document` lives in database.py, which is
    not under src/. Per §4.1 of the spec, `insertOne(collection, doc) -> id`
    appends the document to the named collection and returns its fresh id,
    and any store failure (including an unconfigured store) surfaces as a
    generic store error to the caller. Specialised to the task collection. -/
def create_document_task (db : Option Store) (t : TaskSchema) :
    Except String (Store × String) :=
  match db with
  | none => Except.error "Database not available"
  | some st =>
    let nid := encodeOid st.nextId
    let st2 :=
      { st with task := st.task ++ [(nid, taskDocOf t)], nextId := st.nextId + 1 }
    Except.ok (st2, nid)

/-- `POST /api/tasks` (src/main.py lines 142-156): insert the task, then log
    a `task_created` activity; any exception is returned as a 500 with the
    underlying message, without undoing the insert. -/
def create_task (db : Option Store) (task : TaskSchema) (now : Nat) :
    Option Store × Except HErr String :=
  match create_document_task db task with
  | Except.error e => (db, Except.error ⟨500, e⟩)
  | Except.ok (st, new_id) =>
    if st.activityInsertFails then
      (some st, Except.error ⟨500, "activity insert failed"⟩)
    else
      (some { st with activity := st.activity ++
          [⟨"task_created", "Created task: " ++ task.title, some new_id, now⟩] },
       Except.ok new_id)

/-- `PUT /api/tasks/{task_id}` (src/main.py lines 159-176): 503 when the
    store is unconfigured, 400 on a malformed id, 404 when nothing matches;
    otherwise `$set` the supplied fields and then log a `task_updated`
    activity (a failure of that unguarded insert escapes as a 500 while the
    task update stays in place). -/
def update_task (db : Option Store) (task_id : String) (payload : UpdateTask)
    (now : Nat) : Option Store × Except HErr TaskDoc :=
  match db with
  | none => (none, Except.error dbUnavailableErr)
  | some st =>
    if isValidOid task_id then
      match findOneAndUpdateTask st.task (oidNorm task_id) payload with
      | none => (some st, Except.error taskNotFoundErr)
      | some (tasks2, doc2) =>
        let st2 := { st with task := tasks2 }
        if st2.activityInsertFails then (some st2, Except.error internalErr)
        else
          (some { st2 with activity := st2.activity ++
              [⟨"task_updated", "Updated task: " ++ pyStr doc2.title,
                some task_id, now⟩] },
           Except.ok doc2)
    else (some st, Except.error invalidIdErr)

/-- `DELETE /api/tasks/{task_id}` (src/main.py lines 179-192). -/
def delete_task (db : Option Store) (task_id : String) (now : Nat) :
    Option Store × Except HErr Unit :=
  match db with
  | none => (none, Except.error dbUnavailableErr)
  | some st =>
    if isValidOid task_id then
      match findOneAndDeleteTask st.task (oidNorm task_id) with
      | none => (some st, Except.error taskNotFoundErr)
      | some (tasks2, doc2) =>
        let st2 := { st with task := tasks2 }
        if st2.activityInsertFails then (some st2, Except.error internalErr)
        else
          (some { st2 with activity := st2.activity ++
              [⟨"task_deleted", "Deleted task: " ++ pyStr doc2.title,
                some task_id, now⟩] },
           Except.ok ())
    else (some st, Except.error invalidIdErr)

/-- `PUT /api/notes/{note_id}` (src/main.py lines 252-263): as for tasks but
    with no activity logging. -/
def update_note (db : Option Store) (note_id : String) (payload : UpdateNote) :
    Option Store × Except HErr NoteDoc :=
  match db with
  | none => (none, Except.error dbUnavailableErr)
  | some st =>
    if isValidOid note_id then
      match findOneAndUpdateNote st.note (oidNorm note_id) payload with
      | none => (some st, Except.error noteNotFoundErr)
      | some (notes2, doc2) => (some { st with note := notes2 }, Except.ok doc2)
    else (some st, Except.error invalidIdErr)

/-- `DELETE /api/notes/{note_id}` (src/main.py lines 266-273). -/
def delete_note (db : Option Store) (note_id : String) :
    Option Store × Except HErr Unit :=
  match db with
  | none => (none, Except.error dbUnavailableErr)
  | some st =>
    if isValidOid note_id then
      match findOneAndDeleteNote st.note (oidNorm note_id) with
      | none => (some st, Except.error noteNotFoundErr)
      | some (notes2, _) => (some { st with note := notes2 }, Except.ok ())
    else (some st, Except.error invalidIdErr)

/-- `float(wl.get("hours", 0))`. -/
def wlHours (wl : WorklogDoc) : ℚ := wl.hours.getD 0

/-- `x or y` on optional stored values (`t.get("updated_at") or
    t.get("created_at")`): the first operand wins iff it is truthy. -/
def pyOr (a b : Option BVal) : Option BVal :=
  match a with
  | some v => if bvTruthy v then some v else b
  | none => b

/-- Weekday abbreviation (`date.strftime("%a")`) of a day number; day 0
    (1970-01-01) was a Thursday. -/
def weekdayAbbrev (day : Nat) : String :=
  ["Mon", "Tue", "Wed", "Thu", "Fri", "Sat", "Sun"].getD ((day + 3) % 7) "Mon"

/-- One step of the weekly hours loop: a worklog matched by the range query
    `{"date": {"$gte": start, "$lte": end}}` adds its hours to the map entry
    of its calendar day. -/
def weeklyWlStep (start endt : Nat) (m : Nat → ℚ) (wl : WorklogDoc) : Nat → ℚ :=
  match wl.date with
  | some (BVal.vDT t) =>
    if start ≤ t ∧ t ≤ endt then
      fun dd => if dd = t / 86400 then m dd + wlHours wl else m dd
    else m
  | _ => m

/-- One step of the weekly completed-task loop over `find({"status":
    "done"})`: bump the day of `updated_at or created_at` when that day lies
    in the window. -/
def weeklyTaskStep (d0 d6 : Nat) (m : Nat → Nat) (t : TaskDoc) : Nat → Nat :=
  if t.status = BVal.vStr "done" then
    match pyOr t.updated_at t.created_at with
    | some (BVal.vDT u) =>
      if d0 ≤ u / 86400 ∧ u / 86400 ≤ d6 then
        fun dd => if dd = u / 86400 then m dd + 1 else m dd
      else m
    | _ => m
  else m

def demoWeeklyHours : List ℚ := [6, 7.5, 8, 4, 0, 5, 7]

/-- The weekly analytics response. -/
structure Weekly where
  days : List String
  hours : List ℚ
  tasks_completed : List Nat
deriving DecidableEq, Repr

/-- `GET /api/analytics/weekly` (src/main.py lines 295-331): build per-day
    hour and completed-task maps over the last 7 days and read them back
    oldest first; with no store, fill in the demo series instead. -/
def weekly_analytics (db : Option Store) (now : Nat) : Except HErr Weekly :=
  let start := now - 6 * 86400
  let hm : Nat → ℚ :=
    match db with
    | some st => st.worklog.foldl (weeklyWlStep start now) (fun _ => 0)
    | none =>
      (List.range 7).foldl
        (fun m i => fun dd =>
          if dd = (start + i * 86400) / 86400 then demoWeeklyHours.getD i 0
          else m dd)
        (fun _ => 0)
  let tm : Nat → Nat :=
    match db with
    | some st =>
      (st.task.map Prod.snd).foldl
        (weeklyTaskStep (start / 86400) (now / 86400)) (fun _ => 0)
    | none =>
      fun dd =>
        if dd = now / 86400 then 2
        else if dd = (now - 86400) / 86400 then 3
        else 0
  Except.ok
    { days := (List.range 7).map (fun i => weekdayAbbrev ((start + i * 86400) / 86400)),
      hours := (List.range 7).map (fun i => pyRound2 (hm ((start + i * 86400) / 86400))),
      tasks_completed := (List.range 7).map (fun i => tm ((start + i * 86400) / 86400)) }

/-- One step of a monthly bucket's hours loop over the range query
    `{"date": {"$gte": ws, "$lte": we}}`. -/
def monthlyWlStep (ws we : Nat) (h : ℚ) (wl : WorklogDoc) : ℚ :=
  match wl.date with
  | some (BVal.vDT t) => if ws ≤ t ∧ t ≤ we then h + wlHours wl else h
  | _ => h

/-- One step of a monthly bucket's completed-task loop. -/
def monthlyTaskStep (ws we : Nat) (n : Nat) (t : TaskDoc) : Nat :=
  if t.status = BVal.vStr "done" then
    match pyOr t.updated_at t.created_at with
    | some (BVal.vDT u) =>
      if ws / 86400 ≤ u / 86400 ∧ u / 86400 ≤ we / 86400 then n + 1 else n
    | _ => n
  else n

/-- One record of the monthly analytics response. -/
structure WeekRec where
  label : String
  hours : ℚ
  tasks_completed : Nat
deriving DecidableEq, Repr

/-- The monthly analytics response. -/
structure Monthly where
  weeks : List WeekRec
deriving DecidableEq, Repr

/-- `GET /api/analytics/monthly` (src/main.py lines 334-365): 4 buckets,
    bucket `i` spanning the inclusive datetime range from `start + 7i` days
    to `start + (7(i+1) - 1)` days where `start = now - 29` days. -/
def monthly_analytics (db : Option Store) (now : Nat) : Except HErr Monthly :=
  let start := now - 29 * 86400
  Except.ok
    { weeks :=
        (List.range 4).map (fun i =>
          let ws := start + i * 7 * 86400
          let we := start + ((i + 1) * 7 - 1) * 86400
          match db with
          | some st =>
            { label := "W" ++ toString (i + 1),
              hours := pyRound2 (st.worklog.foldl (monthlyWlStep ws we) 0),
              tasks_completed := (st.task.map Prod.snd).foldl (monthlyTaskStep ws we) 0 }
          | none =>
            { label := "W" ++ toString (i + 1),
              hours := pyRound2 ((32 : ℚ) + 4 * i),
              tasks_completed := 5 + i }) }

/-- The `hours` list of a weekly response (total accessor: the handler never
    raises in the pure model). -/
def hoursOf (e : Except HErr Weekly) : List ℚ :=
  match e with
  | Except.ok r => r.hours
  | Except.error _ => []

/-- The `tasks_completed` list of a weekly response. -/
def tasksOf (e : Except HErr Weekly) : List Nat :=
  match e with
  | Except.ok r => r.tasks_completed
  | Except.error _ => []

/-- The `weeks` list of a monthly response. -/
def weeksOf (e : Except HErr Monthly) : List WeekRec :=
  match e with
  | Except.ok r => r.weeks
  | Except.error _ => []

/-- Hours contributed by one worklog to the day-`dd` bucket of a window:
    its hours when its datetime lies in `[start, endt]` and falls on day
    `dd`, else 0. -/
def wlDayContrib (start endt dd : Nat) (wl : WorklogDoc) : ℚ :=
  match wl.date with
  | some (BVal.vDT t) =>
    if start ≤ t ∧ t ≤ endt then (if dd = t / 86400 then wlHours wl else 0) else 0
  | _ => 0

/-- Hours contributed by one worklog to a monthly bucket spanning the
    inclusive datetime range `[ws, we]`. -/
def bucketContrib (ws we : Nat) (wl : WorklogDoc) : ℚ :=
  match wl.date with
  | some (BVal.vDT t) => if ws ≤ t ∧ t ≤ we then wlHours wl else 0
  | _ => 0

/-- A done task counted by a monthly bucket: its completion timestamp
    (`updated_at or created_at`) is a datetime whose calendar day lies in
    the bucket's day range. -/
def taskBucketPred (ws we : Nat) (t : TaskDoc) : Bool :=
  decide (t.status = BVal.vStr "done") &&
  (match pyOr t.updated_at t.created_at with
   | some (BVal.vDT u) =>
     decide (ws / 86400 ≤ u / 86400) && decide (u / 86400 ≤ we / 86400)
   | _ => false)

/-- A done task counted on day `dd` of the weekly window `[d0, d6]`
    (day numbers). -/
def weekTaskPredDay (d0 d6 dd : Nat) (t : TaskDoc) : Bool :=
  decide (t.status = BVal.vStr "done") &&
  (match pyOr t.updated_at t.created_at with
   | some (BVal.vDT u) =>
     decide (d0 ≤ u / 86400) && decide (u / 86400 ≤ d6) && decide (dd = u / 86400)
   | _ => false)

lemma weeklyWlStep_apply (start endt : Nat) (m : Nat → ℚ) (wl : WorklogDoc)
    (dd : Nat) :
    weeklyWlStep start endt m wl dd = m dd + wlDayContrib start endt dd wl := by
  unfold weeklyWlStep wlDayContrib
  cases hd : wl.date with
  | none => simp
  | some v =>
    cases v <;> simp
    split_ifs <;> simp_all

lemma weeklyWlFold (start endt : Nat) (l : List WorklogDoc) (m : Nat → ℚ)
    (dd : Nat) :
    l.foldl (weeklyWlStep start endt) m dd
      = m dd + (l.map (wlDayContrib start endt dd)).sum := by
  induction l generalizing m with
  | nil => simp
  | cons wl rest ih =>
    simp only [List.foldl_cons, List.map_cons, List.sum_cons]
    rw [ih, weeklyWlStep_apply]
    ring

lemma weeklyTaskStep_apply (d0 d6 : Nat) (m : Nat → Nat) (t : TaskDoc)
    (dd : Nat) :
    weeklyTaskStep d0 d6 m t dd
      = m dd + (if weekTaskPredDay d0 d6 dd t then 1 else 0) := by
  unfold weeklyTaskStep weekTaskPredDay
  by_cases hs : t.status = BVal.vStr "done"
  · cases hu : pyOr t.updated_at t.created_at with
    | none => simp [hs]
    | some v =>
      cases v <;> simp [hs]
      split_ifs <;> simp_all
  · simp [hs]

lemma weeklyTaskFold (d0 d6 : Nat) (l : List TaskDoc) (m : Nat → Nat)
    (dd : Nat) :
    l.foldl (weeklyTaskStep d0 d6) m dd
      = m dd + l.countP (weekTaskPredDay d0 d6 dd) := by
  induction l generalizing m with
  | nil => simp
  | cons t rest ih =>
    simp only [List.foldl_cons, List.countP_cons]
    rw [ih, weeklyTaskStep_apply]
    split_ifs <;> omega

lemma monthlyWlStep_apply (ws we : Nat) (a : ℚ) (wl : WorklogDoc) :
    monthlyWlStep ws we a wl = a + bucketContrib ws we wl := by
  unfold monthlyWlStep bucketContrib
  cases hd : wl.date with
  | none => simp
  | some v =>
    cases v <;> simp
    split_ifs <;> simp_all

lemma monthlyWlFold (ws we : Nat) (l : List WorklogDoc) (a : ℚ) :
    l.foldl (monthlyWlStep ws we) a = a + (l.map (bucketContrib ws we)).sum := by
  induction l generalizing a with
  | nil => simp
  | cons wl rest ih =>
    simp only [List.foldl_cons, List.map_cons, List.sum_cons]
    rw [ih, monthlyWlStep_apply]
    ring

lemma monthlyTaskStep_apply (ws we : Nat) (n : Nat) (t : TaskDoc) :
    monthlyTaskStep ws we n t = n + (if taskBucketPred ws we t then 1 else 0) := by
  unfold monthlyTaskStep taskBucketPred
  by_cases hs : t.status = BVal.vStr "done"
  · cases hu : pyOr t.updated_at t.created_at with
    | none => simp [hs]
    | some v =>
      cases v <;> simp [hs]
      split_ifs <;> simp_all
  · simp [hs]

lemma monthlyTaskFold (ws we : Nat) (l : List TaskDoc) (n : Nat) :
    l.foldl (monthlyTaskStep ws we) n = n + l.countP (taskBucketPred ws we) := by
  induction l generalizing n with
  | nil => simp
  | cons t rest ih =>
    simp only [List.foldl_cons, List.countP_cons]
    rw [ih, monthlyTaskStep_apply]
    split_ifs <;> omega

lemma findOneAndUpdateTask_of_not_mem (l : List (String × TaskDoc)) (k : String)
    (p : UpdateTask) (h : ∀ kv ∈ l, kv.1 ≠ k) :
    findOneAndUpdateTask l k p = none := by
  induction l with
  | nil => rfl
  | cons kv rest ih =>
    have h0 : kv.1 ≠ k := h kv (List.mem_cons_self kv rest)
    simp only [findOneAndUpdateTask, if_neg h0,
      ih (fun x hx => h x (List.mem_cons_of_mem kv hx))]

lemma findOneAndUpdateTask_append (pre : List (String × TaskDoc)) (k : String)
    (d : TaskDoc) (post : List (String × TaskDoc)) (p : UpdateTask)
    (h : ∀ kv ∈ pre, kv.1 ≠ k) :
    findOneAndUpdateTask (pre ++ (k, d) :: post) k p
      = some (pre ++ (k, apply_update d p) :: post, apply_update d p) := by
  induction pre with
  | nil => simp [findOneAndUpdateTask]
  | cons kv rest ih =>
    have h0 : kv.1 ≠ k := h kv (List.mem_cons_self kv rest)
    simp only [List.cons_append, findOneAndUpdateTask, if_neg h0, List.append_eq]
    rw [ih (fun x hx => h x (List.mem_cons_of_mem kv hx))]

lemma findOneAndDeleteTask_of_not_mem (l : List (String × TaskDoc)) (k : String)
    (h : ∀ kv ∈ l, kv.1 ≠ k) :
    findOneAndDeleteTask l k = none := by
  induction l with
  | nil => rfl
  | cons kv rest ih =>
    have h0 : kv.1 ≠ k := h kv (List.mem_cons_self kv rest)
    simp only [findOneAndDeleteTask, if_neg h0,
      ih (fun x hx => h x (List.mem_cons_of_mem kv hx))]

lemma findOneAndDeleteTask_append (pre : List (String × TaskDoc)) (k : String)
    (d : TaskDoc) (post : List (String × TaskDoc))
    (h : ∀ kv ∈ pre, kv.1 ≠ k) :
    findOneAndDeleteTask (pre ++ (k, d) :: post) k = some (pre ++ post, d) := by
  induction pre with
  | nil => simp [findOneAndDeleteTask]
  | cons kv rest ih =>
    have h0 : kv.1 ≠ k := h kv (List.mem_cons_self kv rest)
    simp only [List.cons_append, findOneAndDeleteTask, if_neg h0, List.append_eq]
    rw [ih (fun x hx => h x (List.mem_cons_of_mem kv hx))]

lemma findOneAndUpdateNote_of_not_mem (l : List (String × NoteDoc)) (k : String)
    (p : UpdateNote) (h : ∀ kv ∈ l, kv.1 ≠ k) :
    findOneAndUpdateNote l k p = none := by
  induction l with
  | nil => rfl
  | cons kv rest ih =>
    have h0 : kv.1 ≠ k := h kv (List.mem_cons_self kv rest)
    simp only [findOneAndUpdateNote, if_neg h0,
      ih (fun x hx => h x (List.mem_cons_of_mem kv hx))]

lemma findOneAndDeleteNote_of_not_mem (l : List (String × NoteDoc)) (k : String)
    (h : ∀ kv ∈ l, kv.1 ≠ k) :
    findOneAndDeleteNote l k = none := by
  induction l with
  | nil => rfl
  | cons kv rest ih =>
    have h0 : kv.1 ≠ k := h kv (List.mem_cons_self kv rest)
    simp only [findOneAndDeleteNote, if_neg h0,
      ih (fun x hx => h x (List.mem_cons_of_mem kv hx))]

lemma pyRound2_eq_self (q : ℚ) (n : ℤ) (h : q * 100 = (n : ℚ)) :
    pyRound2 q = q := by
  unfold pyRound2 roundHalfEven
  rw [h, Int.floor_intCast, if_pos (by norm_num)]
  have hq : q = (n : ℚ) / 100 := by
    field_simp
    linarith
  rw [hq]

/-- The per-day rounded hours total that claim C2 asserts, stated from the
    claim's words: the sum of the hours of every worklog whose `date` falls
    on day `i` of the 7-day window, with no datetime-range restriction. -/
def claimedWeeklyDayHours (st : Store) (now i : Nat) : ℚ :=
  pyRound2 ((st.worklog.map (fun wl =>
    match wl.date with
    | some (BVal.vDT t) =>
      if t / 86400 = (now - 6 * 86400 + i * 86400) / 86400 then wlHours wl else 0
    | _ => 0)).sum)

def mkDemoWl (t : Nat) (h : ℚ) : WorklogDoc :=
  ⟨some (BVal.vDT t), some h, some "General", some "Demo"⟩

/-- 2023-11-14 22:13:20 UTC: the fixed query time of the concrete
    scenarios below. -/
def tNow : Nat := 1700000000

/-- A store holding worklogs of hours `[6, 7.5, 8, 4, 0, 5, 7]` dated today
    through 6 days ago (at the query time's clock time). -/
def c2DemoStore : Store where
  task := []
  note := []
  worklog :=
    [mkDemoWl 1700000000 6,
     mkDemoWl (1700000000 - 86400) 7.5,
     mkDemoWl (1700000000 - 2 * 86400) 8,
     mkDemoWl (1700000000 - 3 * 86400) 4,
     mkDemoWl (1700000000 - 4 * 86400) 0,
     mkDemoWl (1700000000 - 5 * 86400) 5,
     mkDemoWl (1700000000 - 6 * 86400) 7]
  activity := []
  nextId := 0
  activityInsertFails := false

/-- A store holding one worklog of 5 hours dated at midnight of the oldest
    day of the weekly window — on a window day, but earlier in the clock
    than `now - 6 days`. -/
def c2CtrStore : Store where
  task := []
  note := []
  worklog := [⟨some (BVal.vDT 1699401600), some 5, none, none⟩]
  activity := []
  nextId := 0
  activityInsertFails := false

/-- C2 (amended): `GET /api/analytics/weekly` buckets by the 7 consecutive
days ending today oldest first; for each day it sums (rounded to 2 decimals)
the hours of the worklogs whose datetime lies in the inclusive interval
`[now - 6 days, now]` and falls on that calendar day — a worklog on a window
day but at a clock time before `now - 6 days` is not counted — and it counts
done tasks by the day of `updated_at` (fallback `created_at`); on the demo
scenario of worklogs `[6, 7.5, 8, 4, 0, 5, 7]` dated today..6 days ago the
hours array is `[7, 5, 0, 4, 8, 7.5, 6]`, summing to 37.5. -/
theorem claim_C2_amended :
    (∀ (st : Store) (now : Nat),
      hoursOf (weekly_analytics (some st) now)
        = (List.range 7).map (fun i =>
            pyRound2 ((st.worklog.map
              (wlDayContrib (now - 6 * 86400) now
                ((now - 6 * 86400 + i * 86400) / 86400))).sum))) ∧
    (∀ (st : Store) (now : Nat),
      tasksOf (weekly_analytics (some st) now)
        = (List.range 7).map (fun i =>
            (st.task.map Prod.snd).countP
              (weekTaskPredDay ((now - 6 * 86400) / 86400) (now / 86400)
                ((now - 6 * 86400 + i * 86400) / 86400)))) ∧
    hoursOf (weekly_analytics (some c2DemoStore) tNow)
      = [7, 5, 0, 4, 8, 7.5, 6] ∧
    ([7, 5, 0, 4, 8, (7.5 : ℚ), 6]).sum = 37.5 := by
  have hmain : ∀ (st : Store) (now : Nat),
      hoursOf (weekly_analytics (some st) now)
        = (List.range 7).map (fun i =>
            pyRound2 ((st.worklog.map
              (wlDayContrib (now - 6 * 86400) now
                ((now - 6 * 86400 + i * 86400) / 86400))).sum)) := by
    intro st now
    simp only [weekly_analytics, hoursOf]
    refine List.map_congr_left ?_
    intro i _
    rw [weeklyWlFold]
    simp
  refine ⟨hmain, ?_, ?_, by norm_num⟩
  · intro st now
    simp only [weekly_analytics, tasksOf]
    refine List.map_congr_left ?_
    intro i _
    rw [weeklyTaskFold]
    simp
  · rw [hmain]
    have r0 : pyRound2 (0 : ℚ) = 0 := pyRound2_eq_self 0 0 (by norm_num)
    have r4 : pyRound2 (4 : ℚ) = 4 := pyRound2_eq_self 4 400 (by norm_num)
    have r5 : pyRound2 (5 : ℚ) = 5 := pyRound2_eq_self 5 500 (by norm_num)
    have r6 : pyRound2 (6 : ℚ) = 6 := pyRound2_eq_self 6 600 (by norm_num)
    have r7 : pyRound2 (7 : ℚ) = 7 := pyRound2_eq_self 7 700 (by norm_num)
    have r8 : pyRound2 (8 : ℚ) = 8 := pyRound2_eq_self 8 800 (by norm_num)
    have r75 : pyRound2 ((15 : ℚ) / 2) = 15 / 2 :=
      pyRound2_eq_self (15 / 2) 750 (by norm_num)
    norm_num [c2DemoStore, tNow, mkDemoWl, wlDayContrib, wlHours,
      List.range_succ, r0, r4, r5, r6, r7, r8, r75]

/-- C2: counterexample to the claim as stated. With `now` at 22:13:20 UTC
and a single 5-hour worklog dated at midnight of the oldest window day, the
worklog's date falls on day 0 of the window, so the claim requires
`hours[0] = 5`; the endpoint returns `hours[0] = 0` because the store query
restricts to datetimes in `[now - 6 days, now]`. -/
theorem claim_C2_counterexample :
    (hoursOf (weekly_analytics (some c2CtrStore) tNow)).headI = 0 ∧
    claimedWeeklyDayHours c2CtrStore tNow 0 = 5 ∧
    (hoursOf (weekly_analytics (some c2CtrStore) tNow)).headI
      ≠ claimedWeeklyDayHours c2CtrStore tNow 0 := by
  have r0 : pyRound2 (0 : ℚ) = 0 := pyRound2_eq_self 0 0 (by norm_num)
  have r5 : pyRound2 (5 : ℚ) = 5 := pyRound2_eq_self 5 500 (by norm_num)
  refine ⟨?_, ?_, ?_⟩
  · norm_num [weekly_analytics, hoursOf, weeklyWlStep, wlHours, c2CtrStore,
      tNow, List.range_succ, r0]
  · norm_num [claimedWeeklyDayHours, c2CtrStore, tNow, wlHours, r5]
  · norm_num [weekly_analytics, hoursOf, weeklyWlStep, wlHours,
      claimedWeeklyDayHours, c2CtrStore, tNow, List.range_succ, r0, r5]

/-- Start datetime of monthly bucket `i` (src/main.py line 340):
    `start + i*7` days with `start = now - 29` days. -/
def mWs (now i : Nat) : Nat := now - 29 * 86400 + i * 7 * 86400

/-- End datetime of monthly bucket `i` (src/main.py line 340):
    `start + ((i+1)*7 - 1)` days. -/
def mWe (now i : Nat) : Nat := now - 29 * 86400 + ((i + 1) * 7 - 1) * 86400

/-- Total worklog hours falling in the inclusive datetime range of a
    monthly bucket. -/
def bucketHours (st : Store) (ws we : Nat) : ℚ :=
  (st.worklog.map (bucketContrib ws we)).sum

/-- Done tasks counted by a monthly bucket. -/
def bucketTasks (st : Store) (ws we : Nat) : Nat :=
  (st.task.map Prod.snd).countP (taskBucketPred ws we)

/-- Membership of a datetime in one of the 4 monthly bucket ranges. -/
def inAnyBucketB (now t : Nat) : Bool :=
  decide (mWs now 0 ≤ t ∧ t ≤ mWe now 0) ||
  decide (mWs now 1 ≤ t ∧ t ≤ mWe now 1) ||
  decide (mWs now 2 ≤ t ∧ t ≤ mWe now 2) ||
  decide (mWs now 3 ≤ t ∧ t ≤ mWe now 3)

/-- Hours a worklog contributes to the union of the 4 bucket ranges. -/
def unionContrib (now : Nat) (wl : WorklogDoc) : ℚ :=
  match wl.date with
  | some (BVal.vDT t) => if inAnyBucketB now t then wlHours wl else 0
  | _ => 0

/-- Total worklog hours over the union of the 4 bucket ranges. -/
def unionHours (st : Store) (now : Nat) : ℚ :=
  (st.worklog.map (unionContrib now)).sum

/-- The total the claim C1 asserts, stated from the claim's words: all
    worklog hours across the 28 days ending today. -/
def claimedMonthlyWindowTotal (st : Store) (now : Nat) : ℚ :=
  (st.worklog.map (fun wl =>
    match wl.date with
    | some (BVal.vDT t) =>
      if now / 86400 - 27 ≤ t / 86400 ∧ t / 86400 ≤ now / 86400 then wlHours wl
      else 0
    | _ => 0)).sum

lemma bucket_partition (now : Nat) (wl : WorklogDoc) :
    bucketContrib (mWs now 0) (mWe now 0) wl
      + bucketContrib (mWs now 1) (mWe now 1) wl
      + bucketContrib (mWs now 2) (mWe now 2) wl
      + bucketContrib (mWs now 3) (mWe now 3) wl
      = unionContrib now wl := by
  unfold bucketContrib unionContrib inAnyBucketB mWs mWe
  cases hd : wl.date with
  | none => simp
  | some v =>
    cases v <;> simp
    split_ifs <;> (try (exfalso; omega)) <;> ring

lemma bucketSum_eq_union (st : Store) (now : Nat) :
    ((List.range 4).map (fun i => bucketHours st (mWs now i) (mWe now i))).sum
      = unionHours st now := by
  have key : ∀ l : List WorklogDoc,
      (l.map (bucketContrib (mWs now 0) (mWe now 0))).sum
        + (l.map (bucketContrib (mWs now 1) (mWe now 1))).sum
        + (l.map (bucketContrib (mWs now 2) (mWe now 2))).sum
        + (l.map (bucketContrib (mWs now 3) (mWe now 3))).sum
        = (l.map (unionContrib now)).sum := by
    intro l
    induction l with
    | nil => simp
    | cons wl rest ih =>
      simp only [List.map_cons, List.sum_cons]
      have hp := bucket_partition now wl
      linarith
  simp only [List.range_succ, List.range_zero, List.map_append, List.map_cons,
    List.map_nil, List.sum_append, List.sum_cons, List.sum_nil, List.nil_append,
    bucketHours, unionHours]
  linarith [key st.worklog]

/-- C1 (amended): `GET /api/analytics/monthly` reports 4 buckets oldest
first labelled `W1..W4`, where bucket `i` sums worklog hours over the
inclusive datetime range from `start + 7i` days to `start + (7i+6)` days
with `start = now - 29` days, and counts done tasks over the corresponding
calendar-day range; the 4 ranges are pairwise disjoint, so the sum of the
unrounded per-bucket hours equals the total hours over the union of the
ranges — but that union is not the 28 days ending today: it ends 2 days
before `now` and skips the sub-day gap between consecutive buckets, so
worklogs dated there are counted in no bucket. -/
theorem claim_C1_amended (st : Store) (now : Nat) (hnow : 29 * 86400 ≤ now) :
    weeksOf (monthly_analytics (some st) now)
      = (List.range 4).map (fun i =>
          { label := "W" ++ toString (i + 1),
            hours := pyRound2 (bucketHours st (mWs now i) (mWe now i)),
            tasks_completed := bucketTasks st (mWs now i) (mWe now i) }) ∧
    ((List.range 4).map (fun i => bucketHours st (mWs now i) (mWe now i))).sum
      = unionHours st now ∧
    (mWe now 0 < mWs now 1 ∧ mWe now 1 < mWs now 2 ∧ mWe now 2 < mWs now 3) ∧
    mWe now 3 + 2 * 86400 = now ∧
    (∀ d : Nat,
      (mWs now 0 / 86400 ≤ d ∧ d ≤ mWe now 0 / 86400 ∨
       mWs now 1 / 86400 ≤ d ∧ d ≤ mWe now 1 / 86400 ∨
       mWs now 2 / 86400 ≤ d ∧ d ≤ mWe now 2 / 86400 ∨
       mWs now 3 / 86400 ≤ d ∧ d ≤ mWe now 3 / 86400)
      ↔ ((now - 29 * 86400) / 86400 ≤ d
          ∧ d ≤ (now - 29 * 86400) / 86400 + 27)) := by
  refine ⟨?_, bucketSum_eq_union st now, ?_, ?_, ?_⟩
  · simp only [monthly_analytics, weeksOf]
    refine List.map_congr_left ?_
    intro i _
    rw [monthlyWlFold, monthlyTaskFold]
    simp [bucketHours, bucketTasks, mWs, mWe]
  · refine ⟨?_, ?_, ?_⟩ <;> (simp only [mWs, mWe]; omega)
  · simp only [mWe]
    omega
  · intro d
    simp only [mWs, mWe]
    omega

/-- A store holding a single 5-hour worklog dated exactly `tNow`
    ("today", inside the 28 days ending today). -/
def c1CtrStore : Store where
  task := []
  note := []
  worklog := [⟨some (BVal.vDT 1700000000), some 5, none, none⟩]
  activity := []
  nextId := 0
  activityInsertFails := false

theorem claim_C1_amended_witness :
    29 * 86400 ≤ tNow ∧
    weeksOf (monthly_analytics (some c1CtrStore) tNow)
      = (List.range 4).map (fun i =>
          { label := "W" ++ toString (i + 1),
            hours := pyRound2 (bucketHours c1CtrStore (mWs tNow i) (mWe tNow i)),
            tasks_completed := bucketTasks c1CtrStore (mWs tNow i) (mWe tNow i) }) :=
  ⟨by decide, (claim_C1_amended c1CtrStore tNow (by decide)).1⟩

/-- C1: counterexample to the claim as stated. A 5-hour worklog dated
today lies in the 28-day window ending today, but the endpoint's 4 buckets
all report 0 hours (the last bucket ends 2 days before `now`), so the sum
of the per-bucket hours is 0, not the 5 hours logged across the window. -/
theorem claim_C1_counterexample :
    (weeksOf (monthly_analytics (some c1CtrStore) tNow)).map WeekRec.hours
      = [0, 0, 0, 0] ∧
    claimedMonthlyWindowTotal c1CtrStore tNow = 5 ∧
    ((weeksOf (monthly_analytics (some c1CtrStore) tNow)).map WeekRec.hours).sum
      ≠ claimedMonthlyWindowTotal c1CtrStore tNow := by
  have r0 : pyRound2 (0 : ℚ) = 0 := pyRound2_eq_self 0 0 (by norm_num)
  refine ⟨?_, ?_, ?_⟩
  · norm_num [monthly_analytics, weeksOf, monthlyWlStep, wlHours, c1CtrStore,
      tNow, List.range_succ, r0]
  · norm_num [claimedMonthlyWindowTotal, c1CtrStore, tNow, wlHours]
  · norm_num [monthly_analytics, weeksOf, monthlyWlStep, wlHours, c1CtrStore,
      tNow, claimedMonthlyWindowTotal, List.range_succ, r0]

lemma lookup_map_bconv (l : BDoc) (k : String) :
    List.lookup k (l.map (fun kv => (kv.1, bconv kv.2)))
      = (List.lookup k l).map bconv := by
  induction l with
  | nil => simp
  | cons kv rest ih =>
    by_cases h : k = kv.1
    · simp [List.lookup, h]
    · simp [List.lookup, beq_false_of_ne h, ih]

lemma lookup_append_bdoc (l1 l2 : BDoc) (k : String) :
    List.lookup k (l1 ++ l2)
      = match List.lookup k l1 with
        | some v => some v
        | none => List.lookup k l2 := by
  induction l1 with
  | nil => simp
  | cons kv rest ih =>
    by_cases h : k = kv.1
    · simp [List.lookup, h]
    · simp [List.lookup, beq_false_of_ne h, ih]

lemma lookup_dpop_self (l : BDoc) (k : String) :
    List.lookup k (dpop l k) = none := by
  unfold dpop
  induction l with
  | nil => simp
  | cons kv rest ih =>
    by_cases h : kv.1 = k
    · have hbne : (kv.1 != k) = false := by simp [h]
      simp [List.filter_cons, hbne, ih]
    · have hbne : (kv.1 != k) = true := by simp [h]
      have hne : ¬k = kv.1 := fun he => h he.symm
      simp [List.filter_cons, hbne, List.lookup, beq_false_of_ne hne, ih]

lemma lookup_dpop_ne (l : BDoc) (k k2 : String) (h : k2 ≠ k) :
    List.lookup k2 (dpop l k) = List.lookup k2 l := by
  unfold dpop
  induction l with
  | nil => simp
  | cons kv rest ih =>
    by_cases hk : kv.1 = k
    · have hbne : (kv.1 != k) = false := by simp [hk]
      have hne2 : ¬k2 = kv.1 := fun he => h (he.trans hk)
      simp [List.filter_cons, hbne, List.lookup, beq_false_of_ne hne2, ih]
    · have hbne : (kv.1 != k) = true := by simp [hk]
      by_cases h2 : k2 = kv.1
      · simp [List.filter_cons, hbne, List.lookup, h2]
      · simp [List.filter_cons, hbne, List.lookup, beq_false_of_ne h2, ih]

lemma lookup_dset_self (l : BDoc) (k : String) (v : BVal) :
    List.lookup k (dset l k v) = some v := by
  unfold dset
  split_ifs with h
  · induction l with
    | nil => simp at h
    | cons kv rest ih =>
      by_cases hk : kv.1 = k
      · rw [List.map_cons, if_pos hk]
        simp [List.lookup]
      · have hb : (kv.1 == k) = false := by simp [hk]
        have hne : ¬k = kv.1 := fun he => hk he.symm
        simp only [List.any_cons, hb, Bool.false_or] at h
        rw [List.map_cons, if_neg hk]
        simp [List.lookup, beq_false_of_ne hne, ih h]
  · rw [lookup_append_bdoc]
    have hnone : List.lookup k l = none := by
      induction l with
      | nil => rfl
      | cons kv rest ih =>
        simp only [List.any_cons, Bool.or_eq_true, not_or] at h
        have hne : ¬k = kv.1 := by
          intro he
          exact h.1 (by simp [he])
        simp only [List.lookup, beq_false_of_ne hne]
        exact ih h.2
    simp [hnone, List.lookup]

lemma lookup_dset_ne (l : BDoc) (k k2 : String) (v : BVal) (h : k2 ≠ k) :
    List.lookup k2 (dset l k v) = List.lookup k2 l := by
  unfold dset
  split_ifs with hany
  · induction l with
    | nil => simp
    | cons kv rest ih =>
      by_cases hk : kv.1 = k
      · have hne2 : ¬k2 = kv.1 := fun he => h (he.trans hk)
        rw [List.map_cons, if_pos hk]
        by_cases hr : (rest.any fun kv => kv.1 == k) = true
        · simp [List.lookup, beq_false_of_ne hne2, beq_false_of_ne h, ih hr]
        · have hrn : List.lookup k2 (List.map (fun kv => if kv.1 = k then (k, v) else kv) rest) = List.lookup k2 rest := by
            have : ∀ kv2 ∈ rest, ¬kv2.1 = k := by
              intro kv2 hkv2 he
              apply hr
              simp only [List.any_eq_true]
              exact ⟨kv2, hkv2, by simp [he]⟩
            clear ih hany hr
            induction rest with
            | nil => simp
            | cons kv2 rest2 ih2 =>
              rw [List.map_cons, if_neg (this kv2 (List.mem_cons_self kv2 rest2))]
              by_cases h22 : k2 = kv2.1
              · simp [List.lookup, h22]
              · simp [List.lookup, beq_false_of_ne h22,
                  ih2 (fun x hx => this x (List.mem_cons_of_mem kv2 hx))]
          simp [List.lookup, beq_false_of_ne hne2, beq_false_of_ne h, hrn]
      · rw [List.map_cons, if_neg hk]
        have hb : (kv.1 == k) = false := by simp [hk]
        simp only [List.any_cons, hb, Bool.false_or] at hany
        by_cases h2 : k2 = kv.1
        · simp [List.lookup, h2]
        · simp [List.lookup, beq_false_of_ne h2, ih hany]
  · rw [lookup_append_bdoc]
    cases hl : List.lookup k2 l with
    | some v2 => rfl
    | none => simp [List.lookup, beq_false_of_ne h]

lemma bconv_of_not_truthy (v : BVal) (h : bvTruthy v = false) : bconv v = v := by
  cases v <;> simp_all [bvTruthy, bconv]

/-- C8: `serialize` maps a document whose `_id` is an ObjectId `x` to one
with `id = str(x)` and `_id` removed, renders every datetime field as its
ISO-8601 UTC string while leaving every other field unchanged, and passes a
`None`/absent document through unchanged. -/
lemma lookup_eq_none_of_keys_ne (l : BDoc) (k : String)
    (h : ∀ kv ∈ l, kv.1 ≠ k) : List.lookup k l = none := by
  induction l with
  | nil => rfl
  | cons kv rest ih =>
    have hne : ¬k = kv.1 := fun he => (h kv (List.mem_cons_self kv rest)) he.symm
    simp only [List.lookup, beq_false_of_ne hne]
    exact ih (fun x hx => h x (List.mem_cons_of_mem kv hx))

theorem claim_C8 (d : BDoc) (x : String)
    (hid : dget d "_id" = some (BVal.vOid x))
    (hfresh : ∀ kv ∈ d, kv.1 ≠ "id") :
    serialize none = none ∧
    ∃ d2, serialize (some d) = some d2 ∧
      dget d2 "id" = some (BVal.vStr x) ∧
      dget d2 "_id" = none ∧
      (∀ k v, k ≠ "_id" → dget d k = some v → dget d2 k = some (bconv v)) := by
  refine ⟨rfl, ?_⟩
  have hne : ¬(d.isEmpty = true) := by
    cases d with
    | nil => simp [dget, List.lookup] at hid
    | cons kv rest => simp
  simp only [dget] at hid
  refine ⟨(dset (dpop d "_id") "id" (BVal.vStr x)).map
      (fun kv => (kv.1, bconv kv.2)), ?_, ?_, ?_, ?_⟩
  · simp only [serialize, if_neg hne, dget]
    rw [hid]
    rfl
  · simp only [dget]
    rw [lookup_map_bconv, lookup_dset_self]
    rfl
  · have hidfresh : ("_id" : String) ≠ "id" := by decide
    simp only [dget]
    rw [lookup_map_bconv, lookup_dset_ne _ _ _ _ hidfresh, lookup_dpop_self]
    rfl
  · intro k v hk hkv
    simp only [dget] at hkv ⊢
    have hkid : k ≠ "id" := by
      intro he
      subst he
      rw [lookup_eq_none_of_keys_ne d "id" hfresh] at hkv
      exact Option.noConfusion hkv
    rw [lookup_map_bconv, lookup_dset_ne _ _ _ _ hkid, lookup_dpop_ne _ _ _ hk,
      hkv]
    rfl

/-- C10: on a non-empty document whose `_id` is absent or falsy,
`serialize` sets `id` to `None` rather than failing or omitting it, and a
falsy `_id` key is left in the document rather than popped. -/
theorem claim_C10 (d : BDoc)
    (hne : d ≠ [])
    (hid : dget d "_id" = none
      ∨ ∃ v, dget d "_id" = some v ∧ bvTruthy v = false) :
    ∃ d2, serialize (some d) = some d2 ∧
      dget d2 "id" = some BVal.vNull ∧
      (∀ v, dget d "_id" = some v → dget d2 "_id" = some v) := by
  have hne2 : ¬(d.isEmpty = true) := by
    cases d with
    | nil => exact absurd rfl hne
    | cons kv rest => simp
  refine ⟨(dset d "id" BVal.vNull).map (fun kv => (kv.1, bconv kv.2)),
    ?_, ?_, ?_⟩
  · rcases hid with hid | ⟨v, hid, hfv⟩
    · simp only [dget] at hid
      simp only [serialize, if_neg hne2, dget]
      rw [hid]
    · simp only [dget] at hid
      simp only [serialize, if_neg hne2, dget]
      rw [hid]
      simp [hfv]
  · simp only [dget]
    rw [lookup_map_bconv, lookup_dset_self]
    rfl
  · intro v2 hv2
    have hfv2 : bvTruthy v2 = false := by
      rcases hid with hid | ⟨v, hid, hfv⟩
      · rw [hid] at hv2
        exact Option.noConfusion hv2
      · rw [hid] at hv2
        cases hv2
        exact hfv
    simp only [dget] at hv2 ⊢
    have hidne : ("_id" : String) ≠ "id" := by decide
    rw [lookup_map_bconv, lookup_dset_ne _ _ _ _ hidne, hv2]
    simp [bconv_of_not_truthy v2 hfv2]

def ser8Doc : BDoc :=
  [("_id", BVal.vOid "65f0c0ffee00abcdef123456"),
   ("title", BVal.vStr "Plan the week"),
   ("created_at", BVal.vDT 1700000000)]

theorem claim_C8_witness :
    (dget ser8Doc "_id" = some (BVal.vOid "65f0c0ffee00abcdef123456") ∧
     ∀ kv ∈ ser8Doc, kv.1 ≠ "id") ∧
    (serialize none = none ∧
     ∃ d2, serialize (some ser8Doc) = some d2 ∧
       dget d2 "id" = some (BVal.vStr "65f0c0ffee00abcdef123456") ∧
       dget d2 "_id" = none ∧
       (∀ k v, k ≠ "_id" → dget ser8Doc k = some v →
         dget d2 k = some (bconv v))) :=
  ⟨⟨rfl, by decide⟩, claim_C8 ser8Doc "65f0c0ffee00abcdef123456" rfl (by decide)⟩

def ser10Doc : BDoc :=
  [("_id", BVal.vNull), ("title", BVal.vStr "Plan the week")]

theorem claim_C10_witness :
    (ser10Doc ≠ [] ∧
     (dget ser10Doc "_id" = none
       ∨ ∃ v, dget ser10Doc "_id" = some v ∧ bvTruthy v = false)) ∧
    (∃ d2, serialize (some ser10Doc) = some d2 ∧
      dget d2 "id" = some BVal.vNull ∧
      (∀ v, dget ser10Doc "_id" = some v → dget d2 "_id" = some v)) :=
  ⟨⟨by decide, Or.inr ⟨BVal.vNull, rfl, rfl⟩⟩,
   claim_C10 ser10Doc (by decide) (Or.inr ⟨BVal.vNull, rfl, rfl⟩)⟩

/-- The task collection of a database handle. -/
def taskColOf (db : Option Store) : List (String × TaskDoc) :=
  match db with
  | some st => st.task
  | none => []

/-- The request body `{"status": s}`: only the status field is present. -/
def statusPatch (s : String) : UpdateTask :=
  ⟨none, none, some (some s), none, none, none⟩

lemma apply_update_statusPatch (d : TaskDoc) (s : String) :
    apply_update d (statusPatch s) = { d with status := BVal.vStr s } := rfl

/-- C3: a `PUT /api/tasks/{id}` whose body sets only `status` leaves every
other field of the matched task — and every other task — unchanged: the
stored collection afterwards differs from before exactly in that task's
status field. -/
theorem claim_C3 (st : Store) (pre post : List (String × TaskDoc))
    (tid : String) (doc : TaskDoc) (s : String) (now : Nat)
    (hsplit : st.task = pre ++ (oidNorm tid, doc) :: post)
    (hpre : ∀ kv ∈ pre, kv.1 ≠ oidNorm tid)
    (hvalid : isValidOid tid = true) :
    taskColOf (update_task (some st) tid (statusPatch s) now).1
      = pre ++ (oidNorm tid, { doc with status := BVal.vStr s }) :: post := by
  simp only [update_task, hvalid, if_true]
  rw [hsplit, findOneAndUpdateTask_append pre (oidNorm tid) doc post
    (statusPatch s) hpre, apply_update_statusPatch]
  by_cases hf : st.activityInsertFails <;> simp [taskColOf, hf]

def oid24 : String := "0123456789abcdef01234567"

def w3doc : TaskDoc :=
  ⟨BVal.vStr "Plan the week", BVal.vNull, BVal.vStr "pending",
   BVal.vStr "medium", BVal.vNull, BVal.vListStr [], none, none⟩

def w3St : Store :=
  ⟨[(oidNorm oid24, w3doc)], [], [], [], 7, false⟩

theorem claim_C3_witness :
    (w3St.task = [] ++ (oidNorm oid24, w3doc) :: [] ∧
     (∀ kv ∈ ([] : List (String × TaskDoc)), kv.1 ≠ oidNorm oid24) ∧
     isValidOid oid24 = true) ∧
    taskColOf (update_task (some w3St) oid24 (statusPatch "done") 0).1
      = [] ++ (oidNorm oid24, { w3doc with status := BVal.vStr "done" }) :: [] :=
  ⟨⟨rfl, by simp, by decide⟩,
   claim_C3 w3St [] [] oid24 w3doc "done" 0 rfl (by simp) (by decide)⟩

/-- C5: with the store unconfigured, PUT/DELETE on tasks and notes all fail
with the 503 `ServiceUnavailable` error, and with the store configured but
no document matching a well-formed id they all fail with the 404 `NotFound`
error — two distinct failures. -/
theorem claim_C5 (st : Store) (tid : String) (p : UpdateTask) (q : UpdateNote)
    (now : Nat) :
    (update_task none tid p now).2 = Except.error dbUnavailableErr ∧
    (delete_task none tid now).2 = Except.error dbUnavailableErr ∧
    (update_note none tid q).2 = Except.error dbUnavailableErr ∧
    (delete_note none tid).2 = Except.error dbUnavailableErr ∧
    dbUnavailableErr.status = 503 ∧
    taskNotFoundErr.status = 404 ∧
    noteNotFoundErr.status = 404 ∧
    (isValidOid tid = true → (∀ kv ∈ st.task, kv.1 ≠ oidNorm tid) →
      (update_task (some st) tid p now).2 = Except.error taskNotFoundErr ∧
      (delete_task (some st) tid now).2 = Except.error taskNotFoundErr) ∧
    (isValidOid tid = true → (∀ kv ∈ st.note, kv.1 ≠ oidNorm tid) →
      (update_note (some st) tid q).2 = Except.error noteNotFoundErr ∧
      (delete_note (some st) tid).2 = Except.error noteNotFoundErr) := by
  refine ⟨rfl, rfl, rfl, rfl, rfl, rfl, rfl, ?_, ?_⟩
  · intro hv hmem
    constructor
    · simp only [update_task, hv, if_true,
        findOneAndUpdateTask_of_not_mem st.task (oidNorm tid) p hmem]
    · simp only [delete_task, hv, if_true,
        findOneAndDeleteTask_of_not_mem st.task (oidNorm tid) hmem]
  · intro hv hmem
    constructor
    · simp only [update_note, hv, if_true,
        findOneAndUpdateNote_of_not_mem st.note (oidNorm tid) q hmem]
    · simp only [delete_note, hv, if_true,
        findOneAndDeleteNote_of_not_mem st.note (oidNorm tid) hmem]

/-- The empty configured store. -/
def eSt : Store := ⟨[], [], [], [], 0, false⟩

theorem claim_C5_witness :
    (isValidOid oid24 = true ∧
     (∀ kv ∈ eSt.task, kv.1 ≠ oidNorm oid24) ∧
     (∀ kv ∈ eSt.note, kv.1 ≠ oidNorm oid24)) ∧
    (update_task none oid24 (statusPatch "done") 0).2
      = Except.error dbUnavailableErr ∧
    (update_task (some eSt) oid24 (statusPatch "done") 0).2
      = Except.error taskNotFoundErr ∧
    (delete_note (some eSt) oid24).2 = Except.error noteNotFoundErr := by
  have h := claim_C5 eSt oid24 (statusPatch "done") ⟨none, none, none⟩ 0
  refine ⟨⟨by decide, by simp [eSt], by simp [eSt]⟩, h.1, ?_, ?_⟩
  · exact (h.2.2.2.2.2.2.2.1 (by decide) (by simp [eSt])).1
  · exact (h.2.2.2.2.2.2.2.2 (by decide) (by simp [eSt])).2

/-- C6: when the task write of PUT or DELETE succeeds but the following
activity-log insert fails, the change to the task collection persists —
it is not rolled back — while the request reports a 500 error instead of
success. -/
theorem claim_C6 (st : Store) (pre post : List (String × TaskDoc))
    (tid : String) (doc : TaskDoc) (p : UpdateTask) (now : Nat)
    (hsplit : st.task = pre ++ (oidNorm tid, doc) :: post)
    (hpre : ∀ kv ∈ pre, kv.1 ≠ oidNorm tid)
    (hvalid : isValidOid tid = true)
    (hfail : st.activityInsertFails = true) :
    (taskColOf (update_task (some st) tid p now).1
       = pre ++ (oidNorm tid, apply_update doc p) :: post ∧
     (update_task (some st) tid p now).2 = Except.error internalErr) ∧
    (taskColOf (delete_task (some st) tid now).1 = pre ++ post ∧
     (delete_task (some st) tid now).2 = Except.error internalErr) := by
  constructor
  · simp only [update_task, hvalid, if_true]
    rw [hsplit, findOneAndUpdateTask_append pre (oidNorm tid) doc post p hpre]
    simp [taskColOf, hfail]
  · simp only [delete_task, hvalid, if_true]
    rw [hsplit, findOneAndDeleteTask_append pre (oidNorm tid) doc post hpre]
    simp [taskColOf, hfail]

/-- `w3St` with a failing activity collection. -/
def w6St : Store := ⟨[(oidNorm oid24, w3doc)], [], [], [], 7, true⟩

theorem claim_C6_witness :
    (w6St.task = [] ++ (oidNorm oid24, w3doc) :: [] ∧
     isValidOid oid24 = true ∧ w6St.activityInsertFails = true) ∧
    (taskColOf (update_task (some w6St) oid24 (statusPatch "done") 0).1
       = [] ++ (oidNorm oid24, apply_update w3doc (statusPatch "done")) :: [] ∧
     (update_task (some w6St) oid24 (statusPatch "done") 0).2
       = Except.error internalErr) ∧
    (taskColOf (delete_task (some w6St) oid24 0).1 = [] ++ [] ∧
     (delete_task (some w6St) oid24 0).2 = Except.error internalErr) :=
  ⟨⟨rfl, by decide, rfl⟩,
   claim_C6 w6St [] [] oid24 w3doc (statusPatch "done") 0 rfl (by simp)
     (by decide) rfl⟩

/-- C4 (amended): with the store configured, a malformed id string on any
`{id}` route yields the 400 `InvalidIdFormat` error (never a 404 or 500)
and leaves the store unchanged; with the store unconfigured, the 503 check
runs first, so the same malformed id yields 503 rather than 400. -/
theorem claim_C4_amended (st : Store) (tid : String) (p : UpdateTask)
    (q : UpdateNote) (now : Nat)
    (hbad : isValidOid tid = false) :
    (update_task (some st) tid p now = (some st, Except.error invalidIdErr) ∧
     delete_task (some st) tid now = (some st, Except.error invalidIdErr) ∧
     update_note (some st) tid q = (some st, Except.error invalidIdErr) ∧
     delete_note (some st) tid = (some st, Except.error invalidIdErr) ∧
     invalidIdErr.status = 400) ∧
    (update_task none tid p now = (none, Except.error dbUnavailableErr) ∧
     delete_task none tid now = (none, Except.error dbUnavailableErr) ∧
     update_note none tid q = (none, Except.error dbUnavailableErr) ∧
     delete_note none tid = (none, Except.error dbUnavailableErr) ∧
     dbUnavailableErr.status = 503) := by
  refine ⟨⟨?_, ?_, ?_, ?_, rfl⟩, rfl, rfl, rfl, rfl, rfl⟩ <;>
    simp [update_task, delete_task, update_note, delete_note, hbad]

theorem claim_C4_amended_witness :
    isValidOid "not-an-id" = false ∧
    update_task (some eSt) "not-an-id" (statusPatch "done") 0
      = (some eSt, Except.error invalidIdErr) ∧
    update_task none "not-an-id" (statusPatch "done") 0
      = (none, Except.error dbUnavailableErr) :=
  ⟨by decide,
   (claim_C4_amended eSt "not-an-id" (statusPatch "done") ⟨none, none, none⟩ 0
     (by decide)).1.1,
   (claim_C4_amended eSt "not-an-id" (statusPatch "done") ⟨none, none, none⟩ 0
     (by decide)).2.1⟩

/-- C4: counterexample to the claim as stated. With the store unconfigured,
`PUT /api/tasks/{id}` with the malformed id "not-an-id" returns the 503
`ServiceUnavailable` error, not the 400 `InvalidIdFormat` error: the
store-configured check precedes id validation, so 400 is not returned
"regardless of other conditions". -/
theorem claim_C4_counterexample :
    isValidOid "not-an-id" = false ∧
    (update_task none "not-an-id" (statusPatch "done") 0).2
      = Except.error dbUnavailableErr ∧
    dbUnavailableErr.status = 503 ∧
    (update_task none "not-an-id" (statusPatch "done") 0).2
      ≠ Except.error invalidIdErr := by
  refine ⟨by decide, rfl, rfl, ?_⟩
  intro h
  have : dbUnavailableErr = invalidIdErr := Except.error.inj h
  exact absurd (congrArg HErr.status this) (by decide)

/-- The activity collection of a database handle. -/
def activityColOf (db : Option Store) : List ActivityDoc :=
  match db with
  | some st => st.activity
  | none => []

/-- C7: a successful `POST /api/tasks` appends exactly one Activity record,
of type `task_created`, whose `related_id` is the id returned for the new
task. -/
theorem claim_C7 (st : Store) (t : TaskSchema) (now : Nat)
    (hok : st.activityInsertFails = false) :
    (create_task (some st) t now).2 = Except.ok (encodeOid st.nextId) ∧
    activityColOf (create_task (some st) t now).1
      = st.activity ++
        [⟨"task_created", "Created task: " ++ t.title,
          some (encodeOid st.nextId), now⟩] := by
  constructor <;>
    simp [create_task, create_document_task, hok, activityColOf]

def t7 : TaskSchema := ⟨"Write report", none, "pending", "medium", none, []⟩

theorem claim_C7_witness :
    eSt.activityInsertFails = false ∧
    (create_task (some eSt) t7 0).2 = Except.ok (encodeOid eSt.nextId) ∧
    activityColOf (create_task (some eSt) t7 0).1
      = eSt.activity ++
        [⟨"task_created", "Created task: " ++ t7.title,
          some (encodeOid eSt.nextId), 0⟩] :=
  ⟨rfl, (claim_C7 eSt t7 0 rfl).1, (claim_C7 eSt t7 0 rfl).2⟩

/-- C9: a successful `POST /api/tasks` returns the fresh id under which the
validated document is appended to the task collection, with every supplied
field stored intact and the omitted optional fields given the schema
defaults `status = "pending"`, `priority = "medium"`, `tags = []`. -/
theorem claim_C9 (st : Store) (p : TaskIn) (now : Nat)
    (hok : st.activityInsertFails = false) :
    (create_task (some st) (parseTask p) now).2
      = Except.ok (encodeOid st.nextId) ∧
    taskColOf (create_task (some st) (parseTask p) now).1
      = st.task ++ [(encodeOid st.nextId, taskDocOf (parseTask p))] ∧
    (taskDocOf (parseTask p)).title = BVal.vStr p.title ∧
    (taskDocOf (parseTask p)).description = optStrBVal p.description ∧
    (p.due_date = none → (taskDocOf (parseTask p)).due_date = BVal.vNull) ∧
    (∀ u, p.due_date = some u →
      (taskDocOf (parseTask p)).due_date = BVal.vDT u) ∧
    (p.status = none → (taskDocOf (parseTask p)).status = BVal.vStr "pending") ∧
    (∀ s, p.status = some s →
      (taskDocOf (parseTask p)).status = BVal.vStr s) ∧
    (p.priority = none →
      (taskDocOf (parseTask p)).priority = BVal.vStr "medium") ∧
    (∀ s, p.priority = some s →
      (taskDocOf (parseTask p)).priority = BVal.vStr s) ∧
    (p.tags = none → (taskDocOf (parseTask p)).tags = BVal.vListStr []) ∧
    (∀ l, p.tags = some l → (taskDocOf (parseTask p)).tags = BVal.vListStr l) := by
  refine ⟨?_, ?_, rfl, rfl, ?_, ?_, ?_, ?_, ?_, ?_, ?_, ?_⟩
  · simp [create_task, create_document_task, hok]
  · simp [create_task, create_document_task, hok, taskColOf]
  · intro h
    simp [taskDocOf, parseTask, h]
  · intro u h
    simp [taskDocOf, parseTask, h]
  · intro h
    simp [taskDocOf, parseTask, h]
  · intro s h
    simp [taskDocOf, parseTask, h]
  · intro h
    simp [taskDocOf, parseTask, h]
  · intro s h
    simp [taskDocOf, parseTask, h]
  · intro h
    simp [taskDocOf, parseTask, h]
  · intro l h
    simp [taskDocOf, parseTask, h]

def p9 : TaskIn := ⟨"Write report", some "quarterly numbers", none,
  some "high", none, none⟩

theorem claim_C9_witness :
    (eSt.activityInsertFails = false ∧ p9.status = none ∧
     p9.priority = some "high" ∧ p9.tags = none) ∧
    (create_task (some eSt) (parseTask p9) 0).2
      = Except.ok (encodeOid eSt.nextId) ∧
    taskColOf (create_task (some eSt) (parseTask p9) 0).1
      = eSt.task ++ [(encodeOid eSt.nextId, taskDocOf (parseTask p9))] ∧
    (taskDocOf (parseTask p9)).status = BVal.vStr "pending" ∧
    (taskDocOf (parseTask p9)).priority = BVal.vStr "high" ∧
    (taskDocOf (parseTask p9)).tags = BVal.vListStr [] := by
  have h := claim_C9 eSt p9 0 rfl
  exact ⟨⟨rfl, rfl, rfl, rfl⟩, h.1, h.2.1,
    h.2.2.2.2.2.2.1 rfl, h.2.2.2.2.2.2.2.2.2.1 "high" rfl,
    h.2.2.2.2.2.2.2.2.2.2.1 rfl⟩
